import Mathlib

/-!
Verification development for the Zammad Open WebUI tool (src/zammad.py).

The Python module is shallowly embedded: JSON values become the inductive
type `JVal`, the `Valves` pydantic model becomes a structure, the HTTP
backend becomes an oracle `Req → ℕ → Attempt` mapping the request and the
attempt index to the observed outcome of that attempt, and the event
emitter becomes an accumulated trace of `Event`s.  Floats are modelled as
rationals.  `asyncio.sleep` has no observable effect in the embedding and
is not tracked; the number of HTTP attempts actually issued is tracked
explicitly.
-/

/-- A JSON value as decoded from a Zammad response.  Python dicts are
association lists with unique keys (lookup takes the first match). -/
inductive JVal where
  | null
  | jbool (b : Bool)
  | jnum (q : ℚ)
  | jstr (s : String)
  | jarr (xs : List JVal)
  | jobj (fields : List (String × JVal))

/-- Python `dict.get(k)`: first matching key, `none` when absent. -/
def dictGet (fields : List (String × JVal)) (k : String) : Option JVal :=
  match fields with
  | [] => none
  | (k0, v) :: rest => if k0 = k then some v else dictGet rest k

/-- The `Tools.Valves` configuration model (src/zammad.py lines 425-486),
field for field.  Floats are rationals, ints are integers. -/
structure Valves where
  base_url : String
  token : String
  username : String
  password : String
  verify_ssl : Bool
  timeout_seconds : ℚ
  per_page : ℤ
  compact_results_default : Bool
  max_retries : ℤ
  backoff_initial_seconds : ℚ
  backoff_max_seconds : ℚ
  retry_jitter : ℚ
  allow_public_articles : Bool
  require_confirmation_for_write_ops : Bool

/-- `_headers` succeeds precisely when a token is set or both username and
password are set; otherwise it raises the configuration ValueError. -/
def credsOk (v : Valves) : Bool :=
  v.token != "" || (v.username != "" && v.password != "")

/-- `_compute_delay` (src/zammad.py lines 188-202).  `attempt` is the
1-based retry number; `retry_after` the server hint; `draw` stands for the
value returned by `random.uniform(-delta, delta)`, which the code only
samples when the configured jitter is positive. -/
def _compute_delay (v : Valves) (attempt : ℤ) (retry_after : Option ℚ)
    (draw : ℚ) : ℚ :=
  let base : ℚ :=
    match retry_after with
    | some ra =>
        if 0 < ra then ra
        else v.backoff_initial_seconds * (2 : ℚ) ^ (attempt - 1)
    | none => v.backoff_initial_seconds * (2 : ℚ) ^ (attempt - 1)
  let base := min base v.backoff_max_seconds
  let base := if 0 < v.retry_jitter then base + draw else base
  max 0 base

/-- `_want_compact` (src/zammad.py lines 59-61). -/
def _want_compact (v : Valves) (compact : Option Bool) : Bool :=
  match compact with
  | none => v.compact_results_default
  | some b => b

/-- The field allow-list of the `"ticket"` kind in `_compact_one`. -/
def ticketKeys : List String :=
  ["id", "number", "title", "state", "state_id", "priority", "priority_id",
   "group", "group_id", "customer_id", "owner_id", "organization_id",
   "created_at", "updated_at", "close_at", "tags", "article_count"]

/-- The field allow-list of the `"article"` kind in `_compact_one`.
In compact mode the body is still included (it is the core of a comment). -/
def articleKeys : List String :=
  ["id", "ticket_id", "type", "sender", "from", "to", "subject", "body",
   "content_type", "internal", "created_at", "created_by_id"]

/-- The field allow-list of the `"user"` kind in `_compact_one`. -/
def userKeys : List String :=
  ["id", "login", "firstname", "lastname", "email", "organization_id",
   "active", "created_at", "updated_at"]

/-- The field allow-list of the `"organization"` kind in `_compact_one`. -/
def organizationKeys : List String :=
  ["id", "name", "note", "active", "created_at", "updated_at"]

/-- The field allow-list of the `"state"` kind in `_compact_one`. -/
def stateKeys : List String := ["id", "name", "state_type", "active"]

/-- The field allow-list of the `"group"` kind in `_compact_one`. -/
def groupKeys : List String := ["id", "name", "active", "note"]

/-- The field allow-list of the `"priority"` kind in `_compact_one`. -/
def priorityKeys : List String := ["id", "name", "active"]

/-- The field allow-list of the `"report_profile"` kind in `_compact_one`. -/
def reportProfileKeys : List String :=
  ["id", "name", "active", "condition", "created_at", "updated_at"]

/-- The dict literal `{"id": obj.get("id"), ...}` built by `_compact_one`
for a given allow-list: one entry per listed key, the value being the
`dict.get` result, with Python `None` (here `JVal.null`) for absent keys. -/
def projectFields (fields : List (String × JVal)) (keys : List String) :
    List (String × JVal) :=
  keys.map (fun k => (k, (dictGet fields k).getD JVal.null))

/-- `_compact_one` (src/zammad.py lines 77-176): non-dict values pass
through, known kinds are projected to their allow-list, unknown kinds pass
through unchanged. -/
def _compact_one (kind : String) (obj : JVal) : JVal :=
  match obj with
  | JVal.jobj fields =>
      if kind = "ticket" then JVal.jobj (projectFields fields ticketKeys)
      else if kind = "article" then JVal.jobj (projectFields fields articleKeys)
      else if kind = "user" then JVal.jobj (projectFields fields userKeys)
      else if kind = "organization" then
        JVal.jobj (projectFields fields organizationKeys)
      else if kind = "state" then JVal.jobj (projectFields fields stateKeys)
      else if kind = "group" then JVal.jobj (projectFields fields groupKeys)
      else if kind = "priority" then
        JVal.jobj (projectFields fields priorityKeys)
      else if kind = "report_profile" then
        JVal.jobj (projectFields fields reportProfileKeys)
      else JVal.jobj fields
  | other => other

/-- `_maybe_compact` (src/zammad.py lines 179-185). -/
def _maybe_compact (kind : String) (data : JVal) (v : Valves)
    (compact : Option Bool) : JVal :=
  if _want_compact v compact then
    match data with
    | JVal.jarr xs => JVal.jarr (xs.map (_compact_one kind))
    | d => _compact_one kind d
  else data

/-- The list branch of `_maybe_compact`, used where the data is known to be
a Python list (the output of `_paginate`). -/
def _maybe_compact_list (kind : String) (data : List JVal) (v : Valves)
    (compact : Option Bool) : List JVal :=
  if _want_compact v compact then data.map (_compact_one kind) else data

/-- One HTTP attempt as observed by the client: either a response with a
status code, an optional parsed `Retry-After` hint and an optional decoded
JSON body (`none` for an empty or undecodable body, in which case the raw
text is empty), or a network-level failure (connect/read/pool timeout or
connection failure). -/
inductive Attempt where
  | resp (status : Nat) (retryAfter : Option ℚ) (rbody : Option JVal)
  | netFail

/-- The request descriptor passed to the backend oracle: method, path,
query parameters and optional JSON body. -/
structure Req where
  method : String
  path : String
  params : List (String × String)
  body : Option JVal

/-- The error taxonomy of the module: the two `ValueError`s and the
`TypeError` of `_paginate`, the `RuntimeError` raised by `_request` on a
terminal HTTP status, the re-raised httpx transient failure, the
`ValueError` of `_headers`, `OperationCancelledError`, and the
`AttributeError` from calling `.get` on a non-dict result. -/
inductive ZErr where
  | invalidPage
  | perPageTypeErr
  | invalidPerPage
  | api (status : Nat) (method : String) (path : String) (detail : Option JVal)
  | transientNet
  | authConfig
  | cancelled (msg : String)
  | attributeErr

/-- Python `str(e)` for the modelled exceptions.  The rendering of the
detail payload inside the RuntimeError message and the httpx exception
text are abstracted to fixed placeholders; no claim depends on them. -/
def errStr : ZErr → String
  | ZErr.invalidPage => "page must be >= 1"
  | ZErr.perPageTypeErr =>
      "int() argument must be a string, a bytes-like object or a real number, not \x27NoneType\x27"
  | ZErr.invalidPerPage => "per_page must be >= 1"
  | ZErr.api status method path _ =>
      "Zammad API error " ++ toString status ++ " for " ++ method ++ " " ++
        path ++ ": <detail>"
  | ZErr.transientNet => "<httpx transient error>"
  | ZErr.authConfig =>
      "Zammad authentication is not set. Configure the tool Valves: token=... or username=... and password=..."
  | ZErr.cancelled msg => msg
  | ZErr.attributeErr => "<AttributeError>"

/-- `(429, 502, 503, 504)` membership test of `_request`. -/
def retryableStatus (s : Nat) : Bool :=
  s == 429 || s == 502 || s == 503 || s == 504

/-- The synthetic success payload returned for 204 or an empty body. -/
def okJson : JVal := JVal.jobj [("ok", JVal.jbool true)]

/-- Classification of a response once the retry branch was not taken
(src/zammad.py lines 341-356): status >= 400 raises the RuntimeError with
the decoded detail, 204 and empty bodies yield the synthetic marker, and
otherwise the decoded body is returned.  The second component is the total
number of attempts issued so far (the current 0-based index plus one). -/
def classifyResp (r : Req) (status : Nat) (rbody : Option JVal)
    (attempt : Nat) : Except ZErr JVal × Nat :=
  if 400 ≤ status then
    (Except.error (ZErr.api status r.method r.path rbody), attempt + 1)
  else if status == 204 then (Except.ok okJson, attempt + 1)
  else
    match rbody with
    | none => (Except.ok okJson, attempt + 1)
    | some j => (Except.ok j, attempt + 1)

/-- The attempt loop of `_request` (src/zammad.py lines 323-368).
`remaining` is the number of retries still allowed, i.e.
`max_retries - attempt`, so `0 < remaining` is the Python guard
`attempt < max_retries`.  Retryable statuses and network failures retry
while budget remains (the computed backoff sleep is unobservable and not
tracked); on the last allowed attempt they are surfaced as failures. -/
def requestGo (net : Req → Nat → Attempt) (r : Req) :
    Nat → Nat → Except ZErr JVal × Nat
  | attempt, 0 =>
      match net r attempt with
      | Attempt.resp status _ rbody => classifyResp r status rbody attempt
      | Attempt.netFail => (Except.error ZErr.transientNet, attempt + 1)
  | attempt, remaining + 1 =>
      match net r attempt with
      | Attempt.resp status _ rbody =>
          if retryableStatus status then requestGo net r (attempt + 1) remaining
          else classifyResp r status rbody attempt
      | Attempt.netFail => requestGo net r (attempt + 1) remaining

/-- `_request` (src/zammad.py lines 299-368): fails fast with the
configuration error when no credential is usable, otherwise runs the
attempt loop over `0 .. max(0, max_retries)` inclusive.  Returns the
outcome together with the number of HTTP attempts actually issued. -/
def _request (v : Valves) (net : Req → Nat → Attempt) (method path : String)
    (params : List (String × String)) (body : Option JVal) :
    Except ZErr JVal × Nat :=
  if credsOk v then
    requestGo net ⟨method, path, params, body⟩ 0 (max 0 v.max_retries).toNat
  else (Except.error ZErr.authConfig, 0)

/-- `_paginate` (src/zammad.py lines 371-414).  `page` is validated first;
then `int(per_page)` raises a `TypeError` when `per_page` is `None`
(`int(None)`); `per_page or valves.per_page` makes `0` fall back to the
configured default; the effective page size is validated; a single GET
fetches the whole collection; a non-list result is returned as a
one-element list without slicing; a list is sliced to the page window. -/
def _paginate (v : Valves) (net : Req → Nat → Attempt) (path : String)
    (params : List (String × String)) (page : ℤ) (perPage : Option ℤ) :
    Except ZErr (List JVal) × Nat :=
  if page < 1 then (Except.error ZErr.invalidPage, 0)
  else
    match perPage with
    | none => (Except.error ZErr.perPageTypeErr, 0)
    | some pp =>
        let effective := if pp = 0 then v.per_page else pp
        if effective < 1 then (Except.error ZErr.invalidPerPage, 0)
        else
          let rq := _request v net "GET" path params none
          match rq.1 with
          | Except.error e => (Except.error e, rq.2)
          | Except.ok (JVal.jarr xs) =>
              (Except.ok
                ((xs.drop ((page - 1) * effective).toNat).take effective.toNat),
               rq.2)
          | Except.ok other => (Except.ok [other], rq.2)

/-- An event delivered through the optional `__event_emitter__`:
`_emit_status`, `_emit_citation` and `_emit_error` (src/zammad.py lines
205-262).  Citation content carries the data snapshot before the
`json.dumps` serialization, which is abstracted. -/
inductive Event where
  | status (description : String) (done : Bool) (hidden : Bool)
  | citation (name : String) (url : String) (content : JVal)
  | error (message : String)

/-- Append an event to the trace when an emitter is wired; emission is
silently skipped otherwise. -/
def emitE (emitter : Bool) (tr : List Event) (e : Event) : List Event :=
  if emitter then tr ++ [e] else tr

/-- The value returned by the confirmation `event_call`: boolean `True`,
the string `"confirmed"`, or anything else (including `False`). -/
inductive ConfAnswer where
  | isTrue
  | confirmedStr
  | declinedOther

/-- The acceptance test `result is True or result == "confirmed"` of
`_request_confirmation`. -/
def confGranted : ConfAnswer → Bool
  | ConfAnswer.isTrue => true
  | ConfAnswer.confirmedStr => true
  | ConfAnswer.declinedOther => false

/-- `_request_confirmation` (src/zammad.py lines 265-296): with no
confirmation transport wired (`event_call` falsy) it returns `True`;
otherwise it sends the title and message and accepts `True` or
`"confirmed"`.  The transport is modelled by the answer it returns. -/
def _request_confirmation (eventCall : Option ConfAnswer)
    (title message : String) : Bool :=
  match eventCall with
  | none => true
  | some ans =>
      let _sent := (title, message)
      confGranted ans

/-- Python `str()` on a JSON value, used to splice ticket ids into
messages.  Container rendering is abstracted to placeholders; no claim
depends on it. -/
def pyStr : JVal → String
  | JVal.null => "None"
  | JVal.jbool b => if b then "True" else "False"
  | JVal.jnum q => toString q
  | JVal.jstr s => s
  | JVal.jarr _ => "<list>"
  | JVal.jobj _ => "<dict>"

/-- Python `str.rstrip("/")`. -/
def rstripSlash (s : String) : String :=
  String.mk ((s.toList.reverse.dropWhile (fun c => c == '/')).reverse)

/-- The observable outcome of one tool operation: the events emitted
through the event emitter, the number of HTTP attempts issued, and the
returned value or the re-raised exception. -/
structure OpRun where
  events : List Event
  attempts : Nat
  result : Except ZErr JVal

/-- The arguments of `Tools.zammad_create_ticket` (src/zammad.py lines
593-608). -/
structure CreateTicketArgs where
  title : String
  group : String
  customer_id : Option ℤ
  customer_email : Option String
  state : Option String
  priority : Option String
  owner_id : Option ℤ
  article_body : Option String
  article_type : String
  article_internal : Bool
  compact : Option Bool

/-- A `payload[k] = s` assignment guarded by Python string truthiness
(`if state:` style): skipped for `None` and for the empty string. -/
def optTruthyStrField (k : String) (s : Option String) :
    List (String × JVal) :=
  match s with
  | some t => if t != "" then [(k, JVal.jstr t)] else []
  | none => []

/-- The payload built by `zammad_create_ticket` (src/zammad.py lines
638-663): title and group always; `customer_id` when given, else the
`guess:` form for a truthy `customer_email`; state and priority under
truthiness; `owner_id` under `is not None`; the initial article under
body truthiness, with `internal` forced when public articles are not
allowed. -/
def createTicketPayload (v : Valves) (a : CreateTicketArgs) : JVal :=
  JVal.jobj
    ([("title", JVal.jstr a.title), ("group", JVal.jstr a.group)]
     ++ (match a.customer_id with
         | some cid => [("customer_id", JVal.jnum (cid : ℚ))]
         | none =>
             match a.customer_email with
             | some e =>
                 if e != "" then [("customer_id", JVal.jstr ("guess:" ++ e))]
                 else []
             | none => [])
     ++ optTruthyStrField "state" a.state
     ++ optTruthyStrField "priority" a.priority
     ++ (match a.owner_id with
         | some o => [("owner_id", JVal.jnum (o : ℚ))]
         | none => [])
     ++ (match a.article_body with
         | some b =>
             if b != "" then
               [("article", JVal.jobj
                  [("body", JVal.jstr b),
                   ("type", JVal.jstr a.article_type),
                   ("internal", JVal.jbool
                      (if v.allow_public_articles then a.article_internal
                       else true))])]
             else []
         | none => []))

/-- The success path of `zammad_create_ticket` after the confirmation
gate: the in-progress status, the POST through `_request`, compaction, the
citation for the created ticket (`result.get("id", "unknown")`, an
`AttributeError` when the result is not a dict), and the hidden done
status. -/
def createTicketMain (v : Valves) (a : CreateTicketArgs) (emitter : Bool)
    (net : Req → Nat → Attempt) (ev0 : List Event) : OpRun :=
  let ev1 := emitE emitter ev0
    (Event.status ("🎫 Creating ticket \x27" ++ a.title ++ "\x27...")
      false false)
  let payload := createTicketPayload v a
  let rq := _request v net "POST" "/tickets" [] (some payload)
  match rq.1 with
  | Except.error e => ⟨ev1, rq.2, Except.error e⟩
  | Except.ok data =>
      let result := _maybe_compact "ticket" data v a.compact
      match result with
      | JVal.jobj fs =>
          let tid := (dictGet fs "id").getD (JVal.jstr "unknown")
          let ev2 := emitE emitter ev1
            (Event.citation ("Created Ticket #" ++ pyStr tid)
              (rstripSlash v.base_url ++ "/#ticket/zoom/" ++ pyStr tid)
              (JVal.jobj fs))
          let ev3 := emitE emitter ev2
            (Event.status ("✅ Successfully created ticket #" ++ pyStr tid)
              true true)
          ⟨ev3, rq.2, Except.ok (JVal.jobj fs)⟩
      | _ => ⟨ev1, rq.2, Except.error ZErr.attributeErr⟩

/-- The `try` body of `zammad_create_ticket` (src/zammad.py lines
627-680): the optional confirmation gate, then the main path.  A declined
confirmation emits the cancelled status and raises
`OperationCancelledError` before any HTTP request. -/
def createTicketTry (v : Valves) (a : CreateTicketArgs) (emitter : Bool)
    (eventCall : Option ConfAnswer) (net : Req → Nat → Attempt) : OpRun :=
  if v.require_confirmation_for_write_ops then
    let ev1 := emitE emitter []
      (Event.status "🤔 Requesting confirmation to create ticket..."
        false false)
    if _request_confirmation eventCall "Create Ticket"
        ("Create ticket \x27" ++ a.title ++ "\x27 in group \x27" ++
          a.group ++ "\x27?") then
      createTicketMain v a emitter net ev1
    else
      let ev2 := emitE emitter ev1
        (Event.status "❌ Ticket creation cancelled by user" true true)
      ⟨ev2, 0, Except.error (ZErr.cancelled "Ticket creation cancelled by user")⟩
  else createTicketMain v a emitter net []

/-- `Tools.zammad_create_ticket` (src/zammad.py lines 593-684): the `try`
body wrapped by the uniform `except Exception` handler, which emits an
Error event prefixed with the attempted action and re-raises.  The handler
catches every exception, including `OperationCancelledError`. -/
def zammad_create_ticket (v : Valves) (a : CreateTicketArgs)
    (emitter : Bool) (eventCall : Option ConfAnswer)
    (net : Req → Nat → Attempt) : OpRun :=
  let run := createTicketTry v a emitter eventCall net
  match run.result with
  | Except.ok _ => run
  | Except.error e =>
      ⟨emitE emitter run.events
         (Event.error ("Failed to create ticket: " ++ errStr e)),
       run.attempts, Except.error e⟩

/-- The arguments of `Tools.zammad_update_ticket` (src/zammad.py lines
686-699). -/
structure UpdateTicketArgs where
  ticket_id : ℤ
  title : Option String
  state : Option String
  priority : Option String
  group : Option String
  owner_id : Option ℤ
  customer_id : Option ℤ
  organization_id : Option ℤ
  compact : Option Bool

/-- A `payload[k] = s` assignment guarded by `is not None`: present fields
are set, including to the empty string. -/
def optStrField (k : String) (s : Option String) : List (String × JVal) :=
  match s with
  | some t => [(k, JVal.jstr t)]
  | none => []

/-- A `payload[k] = n` assignment guarded by `is not None`. -/
def optIntField (k : String) (n : Option ℤ) : List (String × JVal) :=
  match n with
  | some m => [(k, JVal.jnum (m : ℚ))]
  | none => []

/-- The payload built by `zammad_update_ticket` (src/zammad.py lines
728-743): each field is set only when the argument `is not None`. -/
def updateTicketPayload (u : UpdateTicketArgs) : List (String × JVal) :=
  optStrField "title" u.title
  ++ optStrField "state" u.state
  ++ optStrField "priority" u.priority
  ++ optStrField "group" u.group
  ++ optIntField "owner_id" u.owner_id
  ++ optIntField "customer_id" u.customer_id
  ++ optIntField "organization_id" u.organization_id

/-- The success path of `zammad_update_ticket` after the confirmation
gate: in-progress status, PUT with the payload (sent as `None` when the
payload dict is empty), compaction, citation, hidden done status. -/
def updateTicketMain (v : Valves) (u : UpdateTicketArgs) (emitter : Bool)
    (net : Req → Nat → Attempt) (ev0 : List Event) : OpRun :=
  let ev1 := emitE emitter ev0
    (Event.status ("✏️ Updating ticket #" ++ toString u.ticket_id ++ "...")
      false false)
  let payload := updateTicketPayload u
  let body : Option JVal :=
    if payload.isEmpty then none else some (JVal.jobj payload)
  let rq := _request v net "PUT" ("/tickets/" ++ toString u.ticket_id) [] body
  match rq.1 with
  | Except.error e => ⟨ev1, rq.2, Except.error e⟩
  | Except.ok data =>
      let result := _maybe_compact "ticket" data v u.compact
      let ev2 := emitE emitter ev1
        (Event.citation ("Updated Ticket #" ++ toString u.ticket_id)
          (rstripSlash v.base_url ++ "/#ticket/zoom/" ++ toString u.ticket_id)
          result)
      let ev3 := emitE emitter ev2
        (Event.status
          ("✅ Successfully updated ticket #" ++ toString u.ticket_id)
          true true)
      ⟨ev3, rq.2, Except.ok result⟩

/-- The `try` body of `zammad_update_ticket` (src/zammad.py lines
717-764): optional confirmation gate, then the main path. -/
def updateTicketTry (v : Valves) (u : UpdateTicketArgs) (emitter : Bool)
    (eventCall : Option ConfAnswer) (net : Req → Nat → Attempt) : OpRun :=
  if v.require_confirmation_for_write_ops then
    let ev1 := emitE emitter []
      (Event.status "🤔 Requesting confirmation to update ticket..."
        false false)
    if _request_confirmation eventCall "Update Ticket"
        ("Update ticket #" ++ toString u.ticket_id ++ "?") then
      updateTicketMain v u emitter net ev1
    else
      let ev2 := emitE emitter ev1
        (Event.status "❌ Ticket update cancelled by user" true true)
      ⟨ev2, 0, Except.error (ZErr.cancelled "Ticket update cancelled by user")⟩
  else updateTicketMain v u emitter net []

/-- `Tools.zammad_update_ticket` (src/zammad.py lines 686-768): the `try`
body wrapped by the uniform `except Exception` handler, which emits an
Error event prefixed with the attempted action and re-raises.  The handler
catches every exception, including `OperationCancelledError`. -/
def zammad_update_ticket (v : Valves) (u : UpdateTicketArgs)
    (emitter : Bool) (eventCall : Option ConfAnswer)
    (net : Req → Nat → Attempt) : OpRun :=
  let run := updateTicketTry v u emitter eventCall net
  match run.result with
  | Except.ok _ => run
  | Except.error e =>
      ⟨emitE emitter run.events
         (Event.error
           ("Failed to update ticket #" ++ toString u.ticket_id ++ ": " ++
             errStr e)),
       run.attempts, Except.error e⟩

/-- The observable outcome of a list operation: events, HTTP attempts
issued, and the returned list or re-raised exception. -/
structure ListRun where
  events : List Event
  attempts : Nat
  result : Except ZErr (List JVal)

/-- The search filters built by `zammad_list_tickets` (src/zammad.py lines
525-535).  String filters use truthiness; the id filters use `if x:` too,
so an id of 0 is skipped. -/
def listTicketsFilters (state priority group : Option String)
    (customer_id organization_id : Option ℤ) : List String :=
  (match state with
   | some s => if s != "" then ["state:" ++ s] else []
   | none => [])
  ++ (match priority with
      | some s => if s != "" then ["priority:" ++ s] else []
      | none => [])
  ++ (match group with
      | some s => if s != "" then ["group:" ++ s] else []
      | none => [])
  ++ (match customer_id with
      | some c => if c ≠ 0 then ["customer_id:" ++ toString c] else []
      | none => [])
  ++ (match organization_id with
      | some o => if o ≠ 0 then ["organization_id:" ++ toString o] else []
      | none => [])

/-- `Tools.zammad_list_tickets` (src/zammad.py lines 492-557): in-progress
status, filter marshaling into a `query` parameter, client-side pagination,
compaction, citation, hidden done status; on any exception an Error event
prefixed with the attempted action is emitted and the exception re-raised. -/
def zammad_list_tickets (v : Valves) (state priority group : Option String)
    (customer_id organization_id : Option ℤ) (page : ℤ)
    (perPage : Option ℤ) (compact : Option Bool) (emitter : Bool)
    (net : Req → Nat → Attempt) : ListRun :=
  let ev1 := emitE emitter []
    (Event.status "📋 Listing tickets from Zammad..." false false)
  let filters := listTicketsFilters state priority group customer_id
    organization_id
  let params : List (String × String) :=
    if filters.isEmpty then []
    else [("query", String.intercalate " AND " filters)]
  let pg := _paginate v net "/tickets" params page perPage
  match pg.1 with
  | Except.error e =>
      ⟨emitE emitter ev1
         (Event.error ("Failed to list tickets: " ++ errStr e)),
       pg.2, Except.error e⟩
  | Except.ok data =>
      let result := _maybe_compact_list "ticket" data v compact
      let ev2 := emitE emitter ev1
        (Event.citation "Zammad Tickets" (rstripSlash v.base_url ++ "/tickets")
          (JVal.jarr result))
      let ev3 := emitE emitter ev2
        (Event.status
          ("✅ Successfully retrieved " ++ toString result.length ++ " tickets")
          true true)
      ⟨ev3, pg.2, Except.ok result⟩

/-- A configuration with token auth and a default page size of 3, used to
evaluate the paginator on small concrete collections. -/
def vPp3 : Valves :=
  ⟨"https://zammad.example.com", "secret-token", "", "", true, 30, 3, true,
   3, 4/5, 10, 1/5, true, false⟩

/-- A configuration with confirmation required for write operations. -/
def vConf : Valves :=
  ⟨"https://zammad.example.com", "secret-token", "", "", true, 30, 20, true,
   3, 4/5, 10, 1/5, true, true⟩

/-- A configuration with `max_retries = 2`. -/
def vRetry2 : Valves :=
  ⟨"https://zammad.example.com", "secret-token", "", "", true, 30, 20, true,
   2, 4/5, 10, 1/5, true, false⟩

/-- A configuration with zero jitter. -/
def vJ0 : Valves :=
  ⟨"https://zammad.example.com", "secret-token", "", "", true, 30, 20, true,
   3, 4/5, 10, 0, true, false⟩

/-- A backend that always answers 200 with a five-element collection. -/
def netFive : Req → Nat → Attempt := fun _ _ =>
  Attempt.resp 200 none (some (JVal.jarr
    [JVal.jnum 1, JVal.jnum 2, JVal.jnum 3, JVal.jnum 4, JVal.jnum 5]))

/-- A backend that always answers 200 with a single object. -/
def netObj : Req → Nat → Attempt := fun _ _ =>
  Attempt.resp 200 none (some (JVal.jobj [("id", JVal.jnum 1)]))

/-- A backend every attempt of which returns 503 with an empty body. -/
def net503 : Req → Nat → Attempt := fun _ _ => Attempt.resp 503 none none

/-- Concrete creation arguments. -/
def aSample : CreateTicketArgs :=
  ⟨"Printer broken", "Support", none, none, none, none, none, none, "note",
   true, none⟩

/-- Concrete update arguments. -/
def uSample : UpdateTicketArgs :=
  ⟨42, none, none, none, none, none, none, none, none⟩

/-- C7: for every attempt at least 1, with zero jitter and no server hint
the delay is exactly the clamped exponential
`min(backoff_initial * 2 ^ (attempt - 1), backoff_max)`, and with a
positive server hint the hint is the base delay regardless of the attempt
number, clamped to `backoff_max`.  The backoff configuration values are
durations and assumed non-negative. -/
theorem c7_delay_formula (v : Valves) (attempt : ℤ) (draw : ℚ)
    (_h1 : 1 ≤ attempt)
    (hb : 0 ≤ v.backoff_initial_seconds)
    (hm : 0 ≤ v.backoff_max_seconds)
    (hj : v.retry_jitter = 0) :
    _compute_delay v attempt none draw
      = min (v.backoff_initial_seconds * (2 : ℚ) ^ (attempt - 1))
          v.backoff_max_seconds
    ∧ ∀ hint : ℚ, 0 < hint →
        _compute_delay v attempt (some hint) draw
          = min hint v.backoff_max_seconds := by
  have hpow : (0 : ℚ) ≤ (2 : ℚ) ^ (attempt - 1) :=
    zpow_nonneg (by norm_num) _
  constructor
  · simp only [_compute_delay, hj, lt_self_iff_false, if_false]
    exact max_eq_right (le_min (mul_nonneg hb hpow) hm)
  · intro hint hp
    simp only [_compute_delay, hj, lt_self_iff_false, if_false, if_pos hp]
    exact max_eq_right (le_min hp.le hm)

/-- Witness for C7 at attempt 3 with the zero-jitter configuration. -/
theorem c7_delay_formula_witness :
    _compute_delay vJ0 3 none 0
      = min (vJ0.backoff_initial_seconds * (2 : ℚ) ^ ((3 : ℤ) - 1))
          vJ0.backoff_max_seconds
    ∧ _compute_delay vJ0 3 (some 5) 0 = min 5 vJ0.backoff_max_seconds :=
  ⟨(c7_delay_formula vJ0 3 0 (by norm_num) (by norm_num [vJ0])
      (by norm_num [vJ0]) rfl).1,
   (c7_delay_formula vJ0 3 0 (by norm_num) (by norm_num [vJ0])
      (by norm_num [vJ0]) rfl).2 5 (by norm_num)⟩

/-- C9: projecting an article record that contains a `body` key in compact
mode yields an object that retains the `body` key with its original,
unmodified value. -/
theorem c9_article_body_retained (fields : List (String × JVal)) (bv : JVal)
    (h : dictGet fields "body" = some bv) :
    ∃ fs, _compact_one "article" (JVal.jobj fields) = JVal.jobj fs
      ∧ dictGet fs "body" = some bv := by
  refine ⟨projectFields fields articleKeys, rfl, ?_⟩
  have h2 : dictGet (projectFields fields articleKeys) "body"
      = some ((dictGet fields "body").getD JVal.null) := rfl
  rw [h2, h]
  rfl

/-- Witness for C9 on a one-field article record. -/
theorem c9_article_body_retained_witness :
    ∃ fs, _compact_one "article" (JVal.jobj [("body", JVal.jstr "hello")])
        = JVal.jobj fs
      ∧ dictGet fs "body" = some (JVal.jstr "hello") :=
  c9_article_body_retained [("body", JVal.jstr "hello")] (JVal.jstr "hello")
    rfl

/-- C2: when `per_page` is omitted (Python `None`), `_paginate` fails with
the `TypeError` raised by `int(per_page)` before any HTTP request is
issued; therefore the configured default page size is never reached for an
omitted `per_page`, and a list operation invoked with its default
arguments (`page = 1`, `per_page = None`) fails the same way with zero
HTTP attempts. -/
theorem c2_per_page_none_fails (v : Valves) (net : Req → Nat → Attempt)
    (path : String) (params : List (String × String)) (page : ℤ)
    (state priority group : Option String)
    (customer_id organization_id : Option ℤ) (compact : Option Bool)
    (emitter : Bool) (h : 1 ≤ page) :
    _paginate v net path params page none
      = (Except.error ZErr.perPageTypeErr, 0)
    ∧ (zammad_list_tickets v state priority group customer_id
         organization_id 1 none compact emitter net).result
        = Except.error ZErr.perPageTypeErr
    ∧ (zammad_list_tickets v state priority group customer_id
         organization_id 1 none compact emitter net).attempts = 0 := by
  have hnp : ¬ page < 1 := not_lt.mpr h
  refine ⟨by simp [_paginate, hnp], ?_, ?_⟩ <;>
    simp [zammad_list_tickets, _paginate]

/-- Witness for C2: the default invocation of the ticket list operation. -/
theorem c2_per_page_none_fails_witness :
    _paginate vPp3 netFive "/tickets" [] 1 none
      = (Except.error ZErr.perPageTypeErr, 0)
    ∧ (zammad_list_tickets vPp3 none none none none none 1 none none true
         netFive).result = Except.error ZErr.perPageTypeErr
    ∧ (zammad_list_tickets vPp3 none none none none none 1 none none true
         netFive).attempts = 0 :=
  c2_per_page_none_fails vPp3 netFive "/tickets" [] 1 none none none none
    none none true (by norm_num)

/-- Every attempt of the retry loop observing a retryable 503 with an
empty body consumes the whole remaining budget and then surfaces the
RuntimeError; the attempt count is the starting index plus the budget plus
one. -/
theorem requestGo_all_503 (net : Req → Nat → Attempt) (r : Req)
    (h : ∀ i, net r i = Attempt.resp 503 none none) :
    ∀ remaining attempt,
      requestGo net r attempt remaining
        = (Except.error (ZErr.api 503 r.method r.path none),
           attempt + remaining + 1) := by
  intro remaining
  induction remaining with
  | zero =>
      intro attempt
      simp [requestGo, h attempt, classifyResp]
  | succ n ih =>
      intro attempt
      simp only [requestGo, h attempt, retryableStatus]
      norm_num [ih (attempt + 1)]
      omega

/-- C6: with every attempt answering 503, `_request` performs exactly
`max(0, max_retries) + 1` attempts (the retryable failure on the last
allowed attempt is surfaced, not retried) and raises the API error
carrying status 503; in particular `max_retries = 2` gives exactly 3
attempts. -/
theorem c6_retry_exhaustion_503 (v : Valves) (net : Req → Nat → Attempt)
    (method path : String) (params : List (String × String))
    (body : Option JVal)
    (hcreds : credsOk v = true)
    (h : ∀ r i, net r i = Attempt.resp 503 none none) :
    _request v net method path params body
      = (Except.error (ZErr.api 503 method path none),
         (max 0 v.max_retries).toNat + 1)
    ∧ (v.max_retries = 2 →
        (_request v net method path params body).2 = 3) := by
  have key : _request v net method path params body
      = (Except.error (ZErr.api 503 method path none),
         (max 0 v.max_retries).toNat + 1) := by
    unfold _request
    rw [if_pos hcreds]
    rw [requestGo_all_503 net _ (fun i => h _ i)]
    simp
  refine ⟨key, fun h2 => ?_⟩
  rw [key, h2]
  rfl

/-- Witness for C6: a 503-only backend with `max_retries = 2` stops after
3 attempts with the 503 API error. -/
theorem c6_retry_exhaustion_503_witness :
    _request vRetry2 net503 "GET" "/tickets" [] none
      = (Except.error (ZErr.api 503 "GET" "/tickets" none),
         (max 0 vRetry2.max_retries).toNat + 1)
    ∧ (_request vRetry2 net503 "GET" "/tickets" [] none).2 = 3 :=
  ⟨(c6_retry_exhaustion_503 vRetry2 net503 "GET" "/tickets" [] none rfl
      (fun _ _ => rfl)).1,
   (c6_retry_exhaustion_503 vRetry2 net503 "GET" "/tickets" [] none rfl
      (fun _ _ => rfl)).2 rfl⟩

/-- C5: with confirmation required and the confirmation transport
answering anything other than `True` or `"confirmed"` (a declined
confirmation), both write operations raise `OperationCancelledError` and
issue zero HTTP attempts: the request function is never invoked. -/
theorem c5_declined_confirmation_cancels (v : Valves)
    (a : CreateTicketArgs) (u : UpdateTicketArgs) (emitter : Bool)
    (ans : ConfAnswer) (net net2 : Req → Nat → Attempt)
    (hreq : v.require_confirmation_for_write_ops = true)
    (hans : confGranted ans = false) :
    (zammad_create_ticket v a emitter (some ans) net).result
        = Except.error (ZErr.cancelled "Ticket creation cancelled by user")
    ∧ (zammad_create_ticket v a emitter (some ans) net).attempts = 0
    ∧ (zammad_update_ticket v u emitter (some ans) net2).result
        = Except.error (ZErr.cancelled "Ticket update cancelled by user")
    ∧ (zammad_update_ticket v u emitter (some ans) net2).attempts = 0 := by
  simp [zammad_create_ticket, createTicketTry, zammad_update_ticket,
    updateTicketTry, _request_confirmation, hreq, hans]

/-- Witness for C5 with a concrete declined answer. -/
theorem c5_declined_confirmation_cancels_witness :
    (zammad_create_ticket vConf aSample true
        (some ConfAnswer.declinedOther) netObj).result
      = Except.error (ZErr.cancelled "Ticket creation cancelled by user")
    ∧ (zammad_create_ticket vConf aSample true
        (some ConfAnswer.declinedOther) netObj).attempts = 0
    ∧ (zammad_update_ticket vConf uSample true
        (some ConfAnswer.declinedOther) netObj).result
      = Except.error (ZErr.cancelled "Ticket update cancelled by user")
    ∧ (zammad_update_ticket vConf uSample true
        (some ConfAnswer.declinedOther) netObj).attempts = 0 :=
  c5_declined_confirmation_cancels vConf aSample uSample true
    ConfAnswer.declinedOther netObj netObj rfl rfl

/-- C10: with confirmation required and no confirmation transport wired
(`event_call` is `None`), `_request_confirmation` resolves to granted and
each write operation runs exactly as it would with an explicit `True`
confirmation: the whole observable run (events, HTTP attempts and result)
coincides. -/
theorem c10_absent_transport_grants (v : Valves) (a : CreateTicketArgs)
    (u : UpdateTicketArgs) (emitter : Bool)
    (net net2 : Req → Nat → Attempt)
    (_hreq : v.require_confirmation_for_write_ops = true) :
    (∀ title message, _request_confirmation none title message = true)
    ∧ zammad_create_ticket v a emitter none net
        = zammad_create_ticket v a emitter (some ConfAnswer.isTrue) net
    ∧ zammad_update_ticket v u emitter none net2
        = zammad_update_ticket v u emitter (some ConfAnswer.isTrue) net2 :=
  ⟨fun _ _ => rfl, rfl, rfl⟩

/-- Witness for C10 on a concrete confirmation-requiring configuration. -/
theorem c10_absent_transport_grants_witness :
    _request_confirmation none "Create Ticket" "Create?" = true
    ∧ zammad_create_ticket vConf aSample true none netObj
        = zammad_create_ticket vConf aSample true
            (some ConfAnswer.isTrue) netObj
    ∧ zammad_update_ticket vConf uSample true none netObj
        = zammad_update_ticket vConf uSample true
            (some ConfAnswer.isTrue) netObj :=
  ⟨(c10_absent_transport_grants vConf aSample uSample true netObj netObj
      rfl).1 "Create Ticket" "Create?",
   (c10_absent_transport_grants vConf aSample uSample true netObj netObj
      rfl).2.1,
   (c10_absent_transport_grants vConf aSample uSample true netObj netObj
      rfl).2.2⟩

/-- Counterexample to C1: with the default-style configuration
(`per_page = 3` here, positive like the shipped default 20), supplying
`per_page = 0` does not fail with the ValueError; the falsy-`or` fallback
`per_page or valves.per_page` silently substitutes the configured default
page size and the call succeeds after one HTTP request. -/
theorem c1_counterexample :
    _paginate vPp3 netFive "/tickets" [] 1 (some 0)
      = (Except.ok [JVal.jnum 1, JVal.jnum 2, JVal.jnum 3], 1) := rfl

/-- C1 as amended: `page = 0` (indeed any `page < 1`) fails with the
ValueError before any HTTP request, for every `per_page` argument; but
`per_page = 0` is silently replaced by the configured default page size
(the call behaves exactly as if the default had been passed), and the
ValueError for `per_page` is raised, again before any HTTP request, only
when that effective value is below 1. -/
theorem c1_amended_page_validation (v : Valves)
    (net : Req → Nat → Attempt) (path : String)
    (params : List (String × String)) (page : ℤ) (perPage : Option ℤ) :
    (page < 1 → _paginate v net path params page perPage
        = (Except.error ZErr.invalidPage, 0))
    ∧ _paginate v net path params page (some 0)
        = _paginate v net path params page (some v.per_page)
    ∧ (1 ≤ page → v.per_page < 1 → _paginate v net path params page (some 0)
        = (Except.error ZErr.invalidPerPage, 0)) := by
  refine ⟨fun hlt => by simp [_paginate, hlt], ?_, fun hge hlt => ?_⟩
  · unfold _paginate
    rcases lt_or_ge page 1 with hp | hp
    · simp [hp]
    · have hnp : ¬ page < 1 := not_lt.mpr hp
      simp only [hnp, if_false]
      have heff : (if v.per_page = 0 then v.per_page else v.per_page)
          = v.per_page := ite_self v.per_page
      simp [heff]
  · have hnp : ¬ page < 1 := not_lt.mpr hge
    simp [_paginate, hnp, hlt]

/-- Witness for C1 as amended, exercising all three parts: page 0 is
rejected with no request, `per_page = 0` equals the default-page-size
call, and a configuration whose default page size is 0 makes
`per_page = 0` fail with the ValueError. -/
theorem c1_amended_page_validation_witness :
    _paginate vPp3 netFive "/tickets" [] 0 (some 10)
      = (Except.error ZErr.invalidPage, 0)
    ∧ _paginate vPp3 netFive "/tickets" [] 1 (some 0)
      = _paginate vPp3 netFive "/tickets" [] 1 (some vPp3.per_page)
    ∧ _paginate ⟨"https://zammad.example.com", "secret-token", "", "", true,
        30, 0, true, 3, 4/5, 10, 1/5, true, false⟩ netFive "/tickets" [] 1
        (some 0) = (Except.error ZErr.invalidPerPage, 0) :=
  ⟨(c1_amended_page_validation vPp3 netFive "/tickets" [] 0 (some 10)).1
     (by norm_num),
   (c1_amended_page_validation vPp3 netFive "/tickets" [] 1 (some 0)).2.1,
   (c1_amended_page_validation ⟨"https://zammad.example.com", "secret-token",
      "", "", true, 30, 0, true, 3, 4/5, 10, 1/5, true, false⟩ netFive
      "/tickets" [] 1 (some 0)).2.2 (by norm_num) (by norm_num)⟩

/-- Counterexample to C3: over a single-object (non-list) backend
response, requesting page 2 yields the one-element list containing the
object, not the empty sequence the claim predicts. -/
theorem c3_counterexample :
    _paginate vPp3 netObj "/tickets" [] 2 (some 10)
      = (Except.ok [JVal.jobj [("id", JVal.jnum 1)]], 1)
    ∧ [JVal.jobj [("id", JVal.jnum 1)]] ≠ ([] : List JVal) :=
  ⟨rfl, by simp⟩

/-- C3 as amended: a single-object response is wrapped into a one-element
collection and returned whole, without applying the page window; every
valid page, including any page at least 2, yields the one-element sequence
containing the object. -/
theorem c3_amended_single_object (v : Valves) (net : Req → Nat → Attempt)
    (path : String) (params : List (String × String)) (page pp : ℤ)
    (fetched : JVal) (att : Nat)
    (h1 : 1 ≤ page)
    (h2 : 1 ≤ (if pp = 0 then v.per_page else pp))
    (hreq : _request v net "GET" path params none = (Except.ok fetched, att))
    (hnl : ∀ xs, fetched ≠ JVal.jarr xs) :
    _paginate v net path params page (some pp) = (Except.ok [fetched], att) := by
  have hnp : ¬ page < 1 := not_lt.mpr h1
  have hne : ¬ (if pp = 0 then v.per_page else pp) < 1 := not_lt.mpr h2
  cases fetched with
  | jarr xs => exact absurd rfl (hnl xs)
  | null => simp [_paginate, hnp, hne, hreq]
  | jbool b => simp [_paginate, hnp, hne, hreq]
  | jnum q => simp [_paginate, hnp, hne, hreq]
  | jstr s => simp [_paginate, hnp, hne, hreq]
  | jobj fs => simp [_paginate, hnp, hne, hreq]

/-- Witness for C3 as amended at page 2 over a single-object response. -/
theorem c3_amended_single_object_witness :
    _paginate vPp3 netObj "/tickets" [] 2 (some 10)
      = (Except.ok [JVal.jobj [("id", JVal.jnum 1)]], 1) :=
  c3_amended_single_object vPp3 netObj "/tickets" [] 2 10
    (JVal.jobj [("id", JVal.jnum 1)]) 1 (by norm_num) (by norm_num [vPp3])
    rfl (by intro xs h; cases h)

/-- Counterexample to C4: on a declined confirmation the generic
`except Exception` handler of the write operation also catches
`OperationCancelledError` and emits an Error event for the voluntary
cancellation, so the cancellation is not kept free of Error events. -/
theorem c4_counterexample :
    (zammad_create_ticket vConf aSample true
        (some ConfAnswer.declinedOther) netObj).result
      = Except.error (ZErr.cancelled "Ticket creation cancelled by user")
    ∧ Event.error "Failed to create ticket: Ticket creation cancelled by user"
        ∈ (zammad_create_ticket vConf aSample true
            (some ConfAnswer.declinedOther) netObj).events := by
  refine ⟨rfl, ?_⟩
  have h : (zammad_create_ticket vConf aSample true
      (some ConfAnswer.declinedOther) netObj).events
      = [Event.status "🤔 Requesting confirmation to create ticket..."
           false false,
         Event.status "❌ Ticket creation cancelled by user" true true,
         Event.error
           "Failed to create ticket: Ticket creation cancelled by user"] := rfl
  rw [h]
  simp

/-- C4 as amended: a declined confirmation raises
`OperationCancelledError` after a cancelled Status event and issues no
HTTP request, but the uniform exception handler then also emits exactly
one Error event for the cancellation (message prefixed with the attempted
action) before re-raising; Error events are therefore emitted for
voluntary cancellations just as for genuine errors. -/
theorem c4_amended_cancellation_trace (v : Valves) (a : CreateTicketArgs)
    (u : UpdateTicketArgs) (net net2 : Req → Nat → Attempt)
    (hreq : v.require_confirmation_for_write_ops = true) :
    zammad_create_ticket v a true (some ConfAnswer.declinedOther) net
      = ⟨[Event.status "🤔 Requesting confirmation to create ticket..."
            false false,
          Event.status "❌ Ticket creation cancelled by user" true true,
          Event.error
            "Failed to create ticket: Ticket creation cancelled by user"],
         0, Except.error (ZErr.cancelled "Ticket creation cancelled by user")⟩
    ∧ zammad_update_ticket v u true (some ConfAnswer.declinedOther) net2
      = ⟨[Event.status "🤔 Requesting confirmation to update ticket..."
            false false,
          Event.status "❌ Ticket update cancelled by user" true true,
          Event.error ("Failed to update ticket #" ++ toString u.ticket_id ++
            ": Ticket update cancelled by user")],
         0, Except.error (ZErr.cancelled "Ticket update cancelled by user")⟩ := by
  constructor <;>
    simp [zammad_create_ticket, createTicketTry, zammad_update_ticket,
      updateTicketTry, _request_confirmation, confGranted, emitE, hreq,
      errStr, String.append_assoc]

/-- Witness for C4 as amended with concrete arguments. -/
theorem c4_amended_cancellation_trace_witness :
    zammad_create_ticket vConf aSample true
        (some ConfAnswer.declinedOther) netObj
      = ⟨[Event.status "🤔 Requesting confirmation to create ticket..."
            false false,
          Event.status "❌ Ticket creation cancelled by user" true true,
          Event.error
            "Failed to create ticket: Ticket creation cancelled by user"],
         0, Except.error (ZErr.cancelled "Ticket creation cancelled by user")⟩
    ∧ zammad_update_ticket vConf uSample true
        (some ConfAnswer.declinedOther) netObj
      = ⟨[Event.status "🤔 Requesting confirmation to update ticket..."
            false false,
          Event.status "❌ Ticket update cancelled by user" true true,
          Event.error "Failed to update ticket #42: Ticket update cancelled by user"],
         0, Except.error (ZErr.cancelled "Ticket update cancelled by user")⟩ :=
  ⟨(c4_amended_cancellation_trace vConf aSample uSample netObj netObj rfl).1,
   (c4_amended_cancellation_trace vConf aSample uSample netObj netObj rfl).2⟩

/-- Every entry of a projected allow-list record carries exactly the
`dict.get` value of its key, with null standing in for absent keys. -/
theorem mem_projectFields (fields : List (String × JVal))
    (keys : List String) (k : String) (w : JVal)
    (h : (k, w) ∈ projectFields fields keys) :
    w = (dictGet fields k).getD JVal.null := by
  induction keys with
  | nil => cases h
  | cons k0 ks ih =>
      rcases List.mem_cons.mp h with h1 | h1
      · obtain ⟨hk, hw⟩ := Prod.ext_iff.mp h1
        simp only at hk hw
        subst hk
        exact hw
      · exact ih h1

/-- In an association list with distinct keys (a Python dict), membership
of an entry determines the lookup result. -/
theorem dictGet_of_nodup (l : List (String × JVal)) (k : String) (w : JVal)
    (hnd : (l.map Prod.fst).Nodup) (h : (k, w) ∈ l) :
    dictGet l k = some w := by
  induction l with
  | nil => cases h
  | cons p rest ih =>
      obtain ⟨k0, w0⟩ := p
      rcases List.mem_cons.mp h with h1 | h1
      · obtain ⟨hk, hw⟩ := Prod.ext_iff.mp h1
        simp only at hk hw
        subst hk
        subst hw
        simp [dictGet]
      · have hnd2 : (k0 :: rest.map Prod.fst).Nodup := hnd
        have hparts := List.nodup_cons.mp hnd2
        have hk0 : k0 ≠ k := by
          intro he
          subst he
          exact hparts.1 (List.mem_map.mpr ⟨(k0, w), h1, rfl⟩)
        rw [dictGet, if_neg hk0]
        exact ih hparts.2 h1

/-- Counterexample to C8: projecting the empty ticket record produces an
output containing the key `id` (with value None), a key that is not
present in the input record at all. -/
theorem c8_counterexample :
    _compact_one "ticket" (JVal.jobj [])
      = JVal.jobj (projectFields [] ticketKeys)
    ∧ dictGet (projectFields [] ticketKeys) "id" = some JVal.null
    ∧ dictGet ([] : List (String × JVal)) "id" = none :=
  ⟨rfl, rfl, rfl⟩

/-- C8 as amended: compact projection never invents values — every entry
of the projected output carries exactly the value the input record holds
for its key — but the output key set is the fixed allow-list of the kind,
so a key
absent from the input does appear in the output paired with None. -/
theorem c8_amended_values_not_invented (kind : String)
    (fields : List (String × JVal)) (fs : List (String × JVal))
    (hnd : (fields.map Prod.fst).Nodup)
    (hfs : _compact_one kind (JVal.jobj fields) = JVal.jobj fs)
    (k : String) (w : JVal) (hmem : (k, w) ∈ fs) :
    w = (dictGet fields k).getD JVal.null := by
  unfold _compact_one at hfs
  split_ifs at hfs <;>
    first
      | (injection hfs with h; subst h;
         exact mem_projectFields fields _ k w hmem)
      | (injection hfs with h; subst h;
         rw [dictGet_of_nodup fields k w hnd hmem];
         rfl)

/-- Witness for C8 as amended on a one-field ticket record. -/
theorem c8_amended_values_not_invented_witness :
    JVal.jnum 5 = (dictGet [("id", JVal.jnum 5)] "id").getD JVal.null :=
  c8_amended_values_not_invented "ticket" [("id", JVal.jnum 5)]
    (projectFields [("id", JVal.jnum 5)] ticketKeys) (by simp)
    rfl "id" (JVal.jnum 5) (List.Mem.head _)
